import Mathlib

/-!
Shallow embedding of the mbl-cli SSH session / shell wrapper
(src/mbl/cli/utils/ssh.py, src/mbl/cli/utils/shell.py) and proofs of the
spec claims about it.  Machine behaviour (exceptions, stream reads, the
terminal state, thread start) is made explicit; the paramiko / scp / termios
collaborators are modelled only at the interface the code uses.
-/

/-- Python exceptions that the embedded code can raise or catch. -/
inductive PyError where
  | sshException (msg : String)
  | keyError (key : String)
  | attributeError (msg : String)
  | eofError
  | ioError (msg : String)
  | sshCallError (msg : String) (code : Nat)
  deriving DecidableEq, Repr

/-- Outcome of one call to paramiko SSHClient.connect: success, or a
transport-level paramiko.SSHException. -/
inductive ConnAttempt where
  | ok
  | sshException
  deriving DecidableEq, Repr

/-- Trace of one run of the SSHSession connect loop: how many times
client.connect was invoked, the durations slept (in order), and whether a
connection was established. -/
structure ConnectTrace where
  connectCalls : Nat
  sleeps : List Nat
  connected : Bool
  deriving DecidableEq, Repr

/-- Embeds the Python argument expression for key_filename
from ssh.py line 182: a falsy (empty or absent) lookup result yields None,
otherwise the dictionary is indexed, raising KeyError when the key is
missing.  The dictionary is an association list. -/
def keyFilenameArg (cdict : Option (List (String × String))) :
    Except PyError (Option String) :=
  match cdict with
  | none => .ok none
  | some d =>
    if d = [] then .ok none
    else
      match d.lookup "identityfile" with
      | some v => .ok (some v)
      | none => .error (.keyError "identityfile")

/-- Embeds the retry loop of the SSHSession connect method (ssh.py lines
174-189):
for each of retry_limit iterations, evaluate the key_filename argument
(which may raise KeyError, caught by nothing), call client.connect; on
paramiko.SSHException sleep retry_interval_s and continue, on success break.
When the loop exhausts, the function returns normally: the caught
exceptions are not re-raised. -/
def connectLoop (keyArg : Except PyError (Option String))
    (attempt : Nat → ConnAttempt) (interval : Nat) (idx : Nat) :
    Nat → Except PyError ConnectTrace
  | 0 => .ok ⟨0, [], false⟩
  | n + 1 =>
    match keyArg with
    | .error e => .error e
    | .ok _ =>
      match attempt idx with
      | .ok => .ok ⟨1, [], true⟩
      | .sshException =>
        match connectLoop keyArg attempt interval (idx + 1) n with
        | .error e => .error e
        | .ok r => .ok ⟨r.connectCalls + 1, interval :: r.sleeps, r.connected⟩

/-- Embeds the SSHSession connect method (ssh.py lines 159-189).  cdict is the
SSHConfig lookup result when the per-user config file exists (paramiko
returns a dictionary even for unmatched hostnames), none when the file does
not exist.  attempt gives the outcome of each successive client.connect
call. -/
def SSHSession.connectModel (cdict : Option (List (String × String)))
    (attempt : Nat → ConnAttempt) (retry_limit retry_interval_s : Nat) :
    Except PyError ConnectTrace :=
  connectLoop (keyFilenameArg cdict) attempt retry_interval_s 0 retry_limit

/-- Claim C1: for retry_limit = 3 with every connection attempt raising a
transport exception, the code calls client.connect exactly 3 times and
sleeps 3 times (once after every failed attempt, including the last), then
returns normally: no Connection Error propagates to the caller, the
exceptions having been swallowed by the except branch of the loop. -/
theorem connect_exhausts_retries_silently :
    SSHSession.connectModel none (fun _ => .sshException) 3 5 =
      .ok ⟨3, [5, 5, 5], false⟩ := by rfl

/-- Claim C10: when the per-user SSH config file exists, connect
unconditionally indexes the (truthy, nonempty) lookup dictionary at
"identityfile"; for a hostname with no identity-file mapping the first loop
iteration raises KeyError, which the except branch (limited to SSHException)
does not catch, so connect fails with a key-lookup error and never reaches
password or no-auth authentication. -/
theorem connect_keyerror_when_no_identityfile
    (d : List (String × String)) (attempt : Nat → ConnAttempt)
    (retry_limit interval : Nat)
    (hd : d ≠ []) (hk : d.lookup "identityfile" = none)
    (hN : 0 < retry_limit) :
    SSHSession.connectModel (some d) attempt retry_limit interval =
      .error (.keyError "identityfile") := by
  cases retry_limit with
  | zero => omega
  | succ n =>
    simp only [SSHSession.connectModel, keyFilenameArg, hk, if_neg hd]
    rfl

/-- Concrete instance of connect_keyerror_when_no_identityfile: lookup on an
unmatched hostname yields only the hostname entry. -/
theorem connect_keyerror_witness :
    SSHSession.connectModel (some [("hostname", "dev")]) (fun _ => .ok) 3 5 =
      .error (.keyError "identityfile") :=
  connect_keyerror_when_no_identityfile [("hostname", "dev")] (fun _ => .ok)
    3 5 (by decide) (by decide) (by decide)

/-- Remote streams and exit status produced by a successfully submitted
exec_command call: the stdout and stderr line streams and the channel exit
status.  The stdin member of the returned triple is opened write-only and
is never readable, so it plays no part in the output. -/
structure ExecOutput where
  stdoutLines : List String
  stderrLines : List String
  exitStatus : Nat
  deriving DecidableEq, Repr

/-- Fallback message raised for a nonzero exit status with no captured
stderr text (ssh.py line 141). -/
def genericNonZeroMsg : String := "Remote command returned a non-zero exit code."

/-- Embeds the closure _check_print_out (ssh.py lines 128-146).  The
writeout loop iterates over the (stdin, stdout, stderr) triple: stdin is not
readable and contributes nothing, then stdout lines and stderr lines are
printed in the order read.  Under check, a nonzero exit status raises
SSHCallError carrying the exit code, with the remaining stderr text as the
message when nonempty (the stream has already been drained when writeout was
set) and the generic notice otherwise. -/
def checkPrintOut (o : ExecOutput) (check writeout : Bool) :
    List String × Option PyError :=
  let printed := if writeout then o.stdoutLines ++ o.stderrLines else []
  if check then
    if o.exitStatus ≠ 0 then
      let buf := if writeout then "" else String.join o.stderrLines
      let msg := if buf ≠ "" then buf else genericNonZeroMsg
      (printed, some (.sshCallError msg o.exitStatus))
    else (printed, none)
  else (printed, none)

/-- Message of the IOError raised when exec_command itself fails
(ssh.py lines 151-154). -/
def ioErrorText (cmd cause : String) : String :=
  "The command `" ++ cmd ++ "` failed to execute, the error was: " ++ cause

/-- Embeds the run_cmd method of SSHSession (ssh.py lines 119-157).
exec_result is the outcome of client.exec_command: an error value is a
paramiko.SSHException raised during submission, turned into an IOError.
Returns the printed lines and either the raised error or the channel
output. -/
def runCmd (cmd : String) (exec_result : Except String ExecOutput)
    (check writeout : Bool) : List String × Except PyError ExecOutput :=
  match exec_result with
  | .error ssh_error => ([], .error (.ioError (ioErrorText cmd ssh_error)))
  | .ok out =>
    match checkPrintOut out check writeout with
    | (printed, some e) => (printed, .error e)
    | (printed, none) => (printed, .ok out)

/-- Claim C2: run_cmd with check raises nothing on exit status 0; on a
nonzero exit status with nonempty captured stderr it raises SSHCallError
whose code is the exit status and whose message is exactly the captured
stderr text; with empty stderr the same error carries the generic
nonzero-exit message. -/
theorem runCmd_check_semantics (cmd : String) (o : ExecOutput) :
    (o.exitStatus = 0 → (runCmd cmd (.ok o) true false).2 = .ok o) ∧
    (o.exitStatus ≠ 0 → String.join o.stderrLines ≠ "" →
      (runCmd cmd (.ok o) true false).2 =
        .error (.sshCallError (String.join o.stderrLines) o.exitStatus)) ∧
    (o.exitStatus ≠ 0 → String.join o.stderrLines = "" →
      (runCmd cmd (.ok o) true false).2 =
        .error (.sshCallError genericNonZeroMsg o.exitStatus)) := by
  refine ⟨fun h0 => ?_, fun hne hs => ?_, fun hne hs => ?_⟩
  · simp [runCmd, checkPrintOut, h0]
  · simp [runCmd, checkPrintOut, hne, hs]
  · simp [runCmd, checkPrintOut, hne, hs]

/-- Concrete instance of runCmd_check_semantics at exit codes 0 and 7 with
stderr "disk full" and empty stderr. -/
theorem runCmd_check_semantics_witness :
    (runCmd "ls" (.ok ⟨[], [], 0⟩) true false).2 = .ok ⟨[], [], 0⟩ ∧
    (runCmd "ls" (.ok ⟨[], ["disk full"], 7⟩) true false).2 =
      .error (.sshCallError "disk full" 7) ∧
    (runCmd "ls" (.ok ⟨[], [], 7⟩) true false).2 =
      .error (.sshCallError genericNonZeroMsg 7) := by
  refine ⟨(runCmd_check_semantics "ls" ⟨[], [], 0⟩).1 rfl, ?_, ?_⟩
  · exact ((runCmd_check_semantics "ls" ⟨[], ["disk full"], 7⟩).2.1
      (by decide) (by decide)).trans (by rfl)
  · exact (runCmd_check_semantics "ls" ⟨[], [], 7⟩).2.2 (by decide) rfl

/-- Claim C7: when submission succeeds and writeout is set, run_cmd prints
exactly the remote stdout lines followed by the stderr lines before
returning, so every stdout line appears in the local output in the order
produced. -/
theorem runCmd_writeout_prints_stdout_in_order (cmd : String)
    (o : ExecOutput) (check : Bool) :
    (runCmd cmd (.ok o) check true).1 = o.stdoutLines ++ o.stderrLines := by
  cases check <;> by_cases h : o.exitStatus = 0 <;>
    simp [runCmd, checkPrintOut, h]

/-- hay contains needle as a substring. -/
def strContains (hay needle : String) : Prop :=
  ∃ pre post, hay = pre ++ (needle ++ post)

/-- Claim C9: a transport-level exception while submitting cmd makes
run_cmd raise an IOError whose message contains both the command text and
the underlying cause, and no output is printed; the IOError is a different
constructor from the SSHCallError used for nonzero exit statuses, so
callers can distinguish the two by exception type. -/
theorem runCmd_submission_failure_io_error (cmd cause : String)
    (check writeout : Bool) :
    (runCmd cmd (.error cause) check writeout).2 =
      .error (.ioError (ioErrorText cmd cause)) ∧
    strContains (ioErrorText cmd cause) cmd ∧
    strContains (ioErrorText cmd cause) cause ∧
    ∀ msg code, PyError.ioError (ioErrorText cmd cause) ≠
      PyError.sshCallError msg code := by
  refine ⟨rfl, ?_, ?_, fun msg code h => nomatch h⟩
  · exact ⟨"The command `", "` failed to execute, the error was: " ++ cause,
      by simp [ioErrorText, String.append_assoc]⟩
  · exact ⟨"The command `" ++ cmd ++ "` failed to execute, the error was: ",
      "", by simp [ioErrorText, String.append_assoc]⟩

/-- One step of the authentication sequence performed while connecting. -/
inductive AuthStep where
  | authNone
  | standardNegotiation
  deriving DecidableEq, Repr

/-- Embeds the overridden auth method of SSHClientWithNoAuthSupport
(ssh.py lines 73-78): the transport's auth_none is invoked directly first;
only when it raises paramiko.SSHException does the method fall back to the
paramiko SSHClient standard negotiation with the original username and
arguments.  noAuthAccepted tells whether the transport accepts the
unauthenticated session; the returned list is the sequence of steps
performed, in order. -/
def authOverride (_username : String) (_args : List String)
    (noAuthAccepted : Bool) : List AuthStep :=
  if noAuthAccepted then [.authNone]
  else [.authNone, .standardNegotiation]

/-- Claim C4: the authentication step (in particular when no password and
no identity file were supplied) invokes the direct no-auth attempt first,
and the standard negotiation runs only when that attempt is rejected: an
accepted no-auth gives the single-step trace, a rejected one gives exactly
the two steps in that order. -/
theorem auth_none_first_then_fallback (username : String)
    (args : List String) :
    (∀ acc, (authOverride username args acc).head? = some .authNone) ∧
    authOverride username args true = [.authNone] ∧
    authOverride username args false = [.authNone, .standardNegotiation] := by
  refine ⟨fun acc => ?_, rfl, rfl⟩
  cases acc <;> rfl

/-- State of the underlying paramiko client held by a session: whether a
connection is open and how many times close was called on it. -/
structure ClientState where
  connected : Bool
  closeCalls : Nat
  deriving DecidableEq, Repr

/-- The paramiko SSHClient.close call made by the session exit method: per
the library contract it releases the connection and never raises, also on
an already closed client. -/
def SSHClient.close (s : ClientState) : Except PyError ClientState :=
  .ok ⟨false, s.closeCalls + 1⟩

/-- Result of the body of a with block: a normal value or a raised
exception. -/
inductive BodyResult (α : Type) where
  | ok (a : α)
  | exc (e : PyError)
  deriving DecidableEq, Repr

/-- Embeds the Python with statement applied to an SSHSession (ssh.py lines
90-98): enter connects, the body runs once, and on every exit path the exit
method closes the client exactly once; because the exit method returns
False, a body exception is re-raised unchanged after the close. -/
def withSSHSession {α : Type} (enter : ClientState → ClientState)
    (body : ClientState → BodyResult α × ClientState) (s : ClientState) :
    BodyResult α × ClientState :=
  let s1 := enter s
  let (r, s2) := body s1
  match SSHClient.close s2 with
  | .ok s3 => (r, s3)
  | .error e => (.exc e, s2)

/-- Claim C3: when the body of a with-guarded session raises, the exit
handler still closes the underlying client exactly once before the
exception propagates unchanged (the exit method returns False, so nothing
is swallowed), and a second close on the already closed client succeeds
without raising. -/
theorem withSession_closes_once_and_reraises {α : Type}
    (enter : ClientState → ClientState)
    (body : ClientState → BodyResult α × ClientState) (s : ClientState)
    (e : PyError) (s2 : ClientState)
    (hbody : body (enter s) = (.exc e, s2)) :
    withSSHSession enter body s = (.exc e, ⟨false, s2.closeCalls + 1⟩) ∧
    ∀ t : ClientState, (SSHClient.close t).bind SSHClient.close =
      .ok ⟨false, t.closeCalls + 2⟩ := by
  constructor
  · simp [withSSHSession, hbody, SSHClient.close]
  · intro t; rfl

/-- Concrete instance of withSession_closes_once_and_reraises: a body that
raises EOFError on a freshly connected client. -/
theorem withSession_closes_once_witness :
    @withSSHSession Nat id (fun s => (.exc .eofError, s)) ⟨true, 0⟩ =
      (.exc .eofError, ⟨false, 1⟩) :=
  (@withSession_closes_once_and_reraises Nat id
    (fun s => (.exc .eofError, s)) ⟨true, 0⟩ .eofError ⟨true, 0⟩ rfl).1

/-- Rounds 1000 * sent / size to the nearest integer, ties to even: the
transfer percentage in tenths of a percent, the value the Python percent
format with one decimal digit displays.  The IEEE binary rounding of the
division sent / size is abstracted as exact rational arithmetic. -/
def percentTenths (sent size : Nat) : Nat :=
  let n := sent * 1000
  let q := n / size
  let r := n % size
  if size < 2 * r then q + 1
  else if 2 * r < size then q
  else if q % 2 = 0 then q else q + 1

/-- The percent text produced by the format spec with minimum width 2 and
one decimal digit: the percentage with exactly one digit after the point,
followed by a percent sign.  The minimum width never pads, the rendered
text being at least four characters. -/
def percentString (sent size : Nat) : String :=
  let t := percentTenths sent size
  toString (t / 10) ++ "." ++ toString (t % 10) ++ "%"

/-- Embeds scp_progress (ssh.py lines 25-43): nothing is printed unless at
least one byte was sent and the process-wide SUPPRESS_PROGRESS flag is
unset; otherwise the progress line is printed with a leading carriage
return, then a trailing carriage return and the vt100 clear-line escape.
The filename decode step (bytes versus str) is the identity on the already
decoded name. -/
def scp_progress (suppress_progress : Bool) (filename : String)
    (size sent : Nat) : String :=
  if sent ≠ 0 ∧ suppress_progress = false then
    "\r" ++ filename ++ " is transferring. Progress " ++
      percentString sent size ++ "\r" ++ "\x1b[2K"
  else ""

/-- Claim C8: the progress callback prints nothing when sent = 0, and
nothing at all when the global suppression flag is set; when sent > 0 and
the flag is unset it prints the transferring line whose percentage is
sent / size rendered with one decimal digit, wrapped in the
carriage-return and clear-line terminal controls. -/
theorem scp_progress_semantics (name : String) (size sent : Nat)
    (supp : Bool) :
    (sent = 0 → scp_progress supp name size sent = "") ∧
    (supp = true → scp_progress supp name size sent = "") ∧
    (sent ≠ 0 → supp = false →
      scp_progress supp name size sent =
        "\r" ++ name ++ " is transferring. Progress " ++
          percentString sent size ++ "\r" ++ "\x1b[2K") := by
  refine ⟨fun h => ?_, fun h => ?_, fun h1 h2 => ?_⟩
  · simp [scp_progress, h]
  · simp [scp_progress, h]
  · simp [scp_progress, h1, h2]

/-- Concrete instances of scp_progress_semantics at size 200 and the sent
sequence 0, 50, 200, with and without suppression. -/
theorem scp_progress_semantics_witness :
    scp_progress false "data.img" 200 50 =
      "\rdata.img is transferring. Progress 25.0%\r\x1b[2K" ∧
    scp_progress false "data.img" 200 200 =
      "\rdata.img is transferring. Progress 100.0%\r\x1b[2K" ∧
    scp_progress false "data.img" 200 0 = "" ∧
    scp_progress true "data.img" 200 50 = "" := by
  refine ⟨?_, ?_, ?_, ?_⟩
  · exact ((scp_progress_semantics "data.img" 200 50 false).2.2
      (by decide) rfl).trans (by decide)
  · exact ((scp_progress_semantics "data.img" 200 200 false).2.2
      (by decide) rfl).trans (by decide)
  · exact (scp_progress_semantics "data.img" 200 0 false).1 rfl
  · exact (scp_progress_semantics "data.img" 200 50 true).2.1 rfl

/-- The value the write_task variable binds in WindowsSSHShell.run: Python
Thread.start has no return value, so Thread(target, args).start() yields
None, not the thread handle. -/
def threadStartResult : Option Unit := none

/-- Embeds the main loop of WindowsSSHShell.run (shell.py lines 107-116).
stdin is the sequence of one-character local reads, its exhaustion standing
for the empty read (local EOF).  On EOF the code evaluates the join method
of write_task: with write_task = None this raises AttributeError; with a
real handle it would join the reader and raise EOFError.  The characters
forwarded to the channel are returned alongside the loop outcome. -/
def windowsLoop (write_task : Option Unit) :
    List Char → List Char → List Char × Except PyError Unit
  | [], sent =>
    match write_task with
    | none => (sent, .error (.attributeError
        "NoneType object has no attribute join"))
    | some _ => (sent, .error .eofError)
  | c :: rest, sent => windowsLoop write_task rest (sent ++ [c])

/-- Embeds WindowsSSHShell.run (shell.py lines 88-116): the background
reader thread is started (its handle discarded), the main loop forwards
local input, and the surrounding handler swallows EOFError only. -/
def WindowsSSHShell.run (stdin : List Char) :
    List Char × Except PyError Unit :=
  let write_task := threadStartResult
  let (sent, r) := windowsLoop write_task stdin []
  match r with
  | .error .eofError => (sent, .ok ())
  | other => (sent, other)

/-- Claim C5 (evaluation of the code): because Thread(...).start() returns
None, the join call made at local EOF raises AttributeError, which the
except EOFError handler does not catch: for every local input sequence the
relay ends by raising to the caller instead of waiting for the background
reader and terminating normally. -/
theorem windows_relay_raises_at_eof (stdin : List Char) :
    (WindowsSSHShell.run stdin).2 =
      .error (.attributeError "NoneType object has no attribute join") := by
  have key : ∀ l sent, windowsLoop threadStartResult l sent =
      (sent ++ l, .error (.attributeError
        "NoneType object has no attribute join")) := by
    intro l
    induction l with
    | nil => intro sent; simp [windowsLoop, threadStartResult]
    | cons c rest ih =>
      intro sent
      simp [windowsLoop, ih]
  simp [WindowsSSHShell.run, key]

/-- One channel outcome of the select call in PosixSSHShell.run: the
channel delivered data (empty = remote closed) or a socket timeout was
raised while receiving. -/
inductive ChanRead where
  | data (s : String)
  | timeout
  deriving DecidableEq, Repr

/-- Result of one select call with no timeout: whether the channel was
ready and with what outcome, and whether stdin was ready and what read(1)
returned (empty = local EOF). -/
structure SelectResult where
  chan : Option ChanRead
  stdin : Option String
  deriving DecidableEq, Repr

/-- How one run of the posix relay loop ended. -/
inductive LoopExit where
  | remoteClosed
  | localEof
  | blocked
  deriving DecidableEq, Repr

/-- Trace of one posix relay run: text written to the local display, units
of input sent to the channel, and how the loop ended; blocked stands for
the next select call blocking forever once the supplied schedule is
exhausted. -/
structure RelayResult where
  output : List String
  sent : List String
  exit : LoopExit
  deriving DecidableEq, Repr

/-- Notice printed when the remote side closes the channel
(shell.py line 69). -/
def shellTerminatedNotice : String := "\r\nShell terminated.\r\n"

/-- Embeds the while loop of PosixSSHShell.run (shell.py lines 62-82) over
a schedule of select outcomes.  Each iteration handles the channel first:
an empty recv prints the termination notice and breaks out at once (stdin
is not examined), data is written to the display, a socket timeout is
ignored.  Then the stdin branch: an empty read breaks out, any other unit
of input is sent to the channel unmodified. -/
def posixLoop : List SelectResult → RelayResult
  | [] => ⟨[], [], .blocked⟩
  | r :: rest =>
    match r.chan with
    | some (.data s) =>
      if s = "" then ⟨[shellTerminatedNotice], [], .remoteClosed⟩
      else
        match r.stdin with
        | some t =>
          if t = "" then ⟨[s], [], .localEof⟩
          else
            let k := posixLoop rest
            ⟨s :: k.output, t :: k.sent, k.exit⟩
        | none =>
          let k := posixLoop rest
          ⟨s :: k.output, k.sent, k.exit⟩
    | some .timeout | none =>
      match r.stdin with
      | some t =>
        if t = "" then ⟨[], [], .localEof⟩
        else
          let k := posixLoop rest
          ⟨k.output, t :: k.sent, k.exit⟩
      | none => posixLoop rest

/-- The termios attributes of the local terminal that setraw and setcbreak
modify, abstracted to the canonical-mode and echo flags. -/
structure TermSettings where
  icanon : Bool
  echo : Bool
  deriving DecidableEq, Repr

/-- tty.setraw: turns off canonical mode and echo. -/
def setraw (_t : TermSettings) : TermSettings := ⟨false, false⟩

/-- tty.setcbreak: turns off canonical mode. -/
def setcbreak (t : TermSettings) : TermSettings := ⟨false, t.echo⟩

/-- Embeds the termios_tty decorator (shell.py lines 16-36) around a body
that may return normally or raise: the pre-call attributes are recorded
with tcgetattr, the terminal is put into raw then cbreak mode, the body
runs, and the finally block restores the recorded attributes with
tcsetattr on every exit, exceptional or not.  Returns the body outcome and
the final terminal state. -/
def termiosTty (body : TermSettings → Except PyError RelayResult)
    (t : TermSettings) : Except PyError RelayResult × TermSettings :=
  let oldtty := t
  let raw := setcbreak (setraw t)
  (body raw, oldtty)

/-- Embeds PosixSSHShell.run (shell.py lines 59-82): the relay loop under
the termios_tty decorator; the loop itself raises nothing, so the body
returns its relay trace. -/
def PosixSSHShell.run (sch : List SelectResult) (t : TermSettings) :
    Except PyError RelayResult × TermSettings :=
  termiosTty (fun _ => .ok (posixLoop sch)) t

/-- Claim C6: an empty channel read makes the relay print the termination
notice and stop at once, leaving the rest of the schedule unprocessed and
sending nothing further; and the terminal attributes after the run equal
the attributes before it, also when the decorated body exits with an
exception. -/
theorem posix_relay_stop_and_restore (st : Option String)
    (rest sch : List SelectResult) (t : TermSettings)
    (body : TermSettings → Except PyError RelayResult) :
    posixLoop (⟨some (.data ""), st⟩ :: rest) =
      ⟨[shellTerminatedNotice], [], .remoteClosed⟩ ∧
    (PosixSSHShell.run sch t).2 = t ∧
    (termiosTty body t).2 = t := by
  refine ⟨?_, rfl, rfl⟩
  simp [posixLoop]
